import Mathlib

set_option maxHeartbeats 1000000

/- Shallow embedding of the SenAI resume-ingestion cache/dedup pipeline:
the Redis wrapper module (cacheResumeResult, getCachedResumeResult,
queueResumeParsingTask, getTaskStatus, updateTaskStatus, incrementCounter,
getProcessingStats, calculateRate) and the upload client in
frontend/src/lib/api.js (uploadResume, uploadResumesBatch,
uploadResumesBatchAsync).  JS number arithmetic on the small integer
counters and rates is modelled exactly (Nat / Int / Rat); the remote
key-value store is a state record threaded through each operation, with an
`available` flag modelling the backing store being unreachable (every
remote call raises, and the wrappers catch). -/

/-- A file object as the upload API sees it: `name`, `size`, `lastModified`
and MIME `type` are the fields the code reads; `content` carries the bytes,
which the code never consults when deriving the cache key. -/
structure JSFile where
  name : String
  size : Nat
  lastModified : Nat
  type : String
  content : List Nat
deriving DecidableEq

/-- A JSON object as this untyped client passes it around: every field the
pipeline ever reads is optional (JS `undefined` is `none`), and `extra`
holds the remaining opaque structured fields.  Parsed-resume payloads,
batch result entries and task records are all such objects. -/
structure Obj where
  candidate_id : Option Nat
  filename : Option String
  status : Option String
  fromCache : Option Bool
  message : Option String
  id : Option String
  fileInfoName : Option String
  fileInfoSize : Option Nat
  fileInfoType : Option String
  metadata : Option (List (String × String))
  queuedAt : Option String
  updatedAt : Option String
  result : Option String
  extra : List (String × String)
deriving DecidableEq

/-- The object with every field undefined. -/
def Obj.empty : Obj :=
  { candidate_id := none, filename := none, status := none, fromCache := none,
    message := none, id := none, fileInfoName := none, fileInfoSize := none,
    fileInfoType := none, metadata := none, queuedAt := none, updatedAt := none,
    result := none, extra := [] }

/-- A value at rest in the Redis keyspace as the Upstash client hands it
back on read: `obj o` is a stored JSON serialization, returned already
deserialized as an object; `bad s` is a raw string that `JSON.parse`
rejects (the empty string is falsy in JS and is read as absence). -/
inductive StoredVal where
  | obj (o : Obj)
  | bad (s : String)
deriving DecidableEq

/-- The backing Redis store.  `kv` maps a key to the stored value and the
TTL (seconds) it was last set with; `counters` is the `incr` keyspace
(full key, e.g. "counter:cache_hits" — disjoint from `kv` keys, which the
code always prefixes "resume:" or "task:"); `queue` is the
resume_parsing_queue list; `available = false` models the store being
unreachable, so every remote call raises and the wrapper catches. -/
structure Store where
  kv : String → Option (StoredVal × Nat)
  counters : String → Nat
  queue : List String
  available : Bool

/-- Remote operations observable from outside the client, in the order the
code awaits them: a cache/store read, a store write, a queue push, and a
POST to the external parse gateway. -/
inductive Event where
  | cacheGet (key : String)
  | cacheSet (key : String)
  | queuePush (taskId : String)
  | gatewayPost (endpoint : String) (files : List JSFile)
deriving DecidableEq

/-- Store write with TTL: `redis.set(key, v, { ex: ttl })`. -/
def setKv (s : Store) (key : String) (v : StoredVal) (ttl : Nat) : Store :=
  { s with kv := fun k => if k = key then some (v, ttl) else s.kv k }

/-- The wrapper `incrementCounter(counterName)`: `redis.incr("counter:" +
counterName)`; when the store raises, the error is caught and 0 returned
with no state change. -/
def incrementCounter (s : Store) (counterName : String) : Store × Nat :=
  if s.available then
    let key := "counter:" ++ counterName
    let n := s.counters key + 1
    ({ s with counters := fun c => if c = key then n else s.counters c }, n)
  else
    (s, 0)

/-- Result of a cache read: the store after it, the remote operations it
performed, and the payload returned (none models JS null). -/
structure GetOut where
  store : Store
  trace : List Event
  result : Option Obj

/-- The wrapper `getCachedResumeResult(resumeId)`: returns null for a falsy
id; reads "resume:"++id; a falsy (empty) stored string and an absent key
return null with no counter change; a stored object increments cache_hits
and is returned; a stored string increments cache_hits, then JSON.parse
throws, the inner catch increments cache_misses and returns null; a store
error is caught, cache_misses is incremented (itself a no-op while the
store is down) and null returned. -/
def getCachedResumeResult (s : Store) (resumeId : String) : GetOut :=
  if resumeId = "" then { store := s, trace := [], result := none }
  else
    let key := "resume:" ++ resumeId
    if s.available then
      match s.kv key with
      | none => { store := s, trace := [Event.cacheGet key], result := none }
      | some (StoredVal.obj o, _) =>
        { store := (incrementCounter s "cache_hits").1,
          trace := [Event.cacheGet key], result := some o }
      | some (StoredVal.bad b, _) =>
        if b = "" then { store := s, trace := [Event.cacheGet key], result := none }
        else
          let s1 := (incrementCounter s "cache_hits").1
          let s2 := (incrementCounter s1 "cache_misses").1
          { store := s2, trace := [Event.cacheGet key], result := none }
    else
      { store := (incrementCounter s "cache_misses").1,
        trace := [Event.cacheGet key], result := none }

/-- What `cacheResumeResult` is given to store: a structured record
(serialized with JSON.stringify) or an already-string value stored raw. -/
inductive PData where
  | obj (o : Obj)
  | str (raw : String)
deriving DecidableEq

/-- Result of a cache write: result `none` models the early-return null,
`some true` a successful write, `some false` the caught store error. -/
structure PutOut where
  store : Store
  trace : List Event
  result : Option Bool

/-- The stored form of a `PData`: an object round-trips through
JSON.stringify / the client's deserialization; a raw string is stored
as-is and comes back as a string JSON.parse rejects. -/
def PData.toStored : PData → StoredVal
  | PData.obj o => StoredVal.obj o
  | PData.str raw => StoredVal.bad raw

/-- The wrapper `cacheResumeResult(resumeId, parsedData)`: null for falsy
arguments; otherwise sets "resume:"++id with a 24h (86400s) TTL and
increments cache_operations, returning true; a store error is caught and
false returned (soft failure). -/
def cacheResumeResult (s : Store) (resumeId : String) (parsedData : Option PData) :
    PutOut :=
  if resumeId = "" ∨ parsedData = none then { store := s, trace := [], result := none }
  else
    match parsedData with
    | none => { store := s, trace := [], result := none }
    | some pd =>
      let key := "resume:" ++ resumeId
      if s.available then
        let s1 := setKv s key pd.toStored 86400
        let s2 := (incrementCounter s1 "cache_operations").1
        { store := s2, trace := [Event.cacheSet key], result := some true }
      else
        { store := s, trace := [Event.cacheSet key], result := some false }

/-- Result of queueing a task: the store, trace and the returned task id. -/
structure QueueOut where
  store : Store
  trace : List Event
  taskId : String

/-- The first argument of `queueResumeParsingTask` is duck-typed: the async
batch path passes the string "batch", whose .name/.size/.type are
undefined. -/
inductive ResumeFileArg where
  | str (s : String)
  | file (f : JSFile)
deriving DecidableEq

/-- JS property read `resumeFile.name` (undefined on a string). -/
def ResumeFileArg.rfName : ResumeFileArg → Option String
  | ResumeFileArg.str _ => none
  | ResumeFileArg.file f => some f.name

/-- JS property read `resumeFile.size` (undefined on a string). -/
def ResumeFileArg.rfSize : ResumeFileArg → Option Nat
  | ResumeFileArg.str _ => none
  | ResumeFileArg.file f => some f.size

/-- JS property read `resumeFile.type` (undefined on a string). -/
def ResumeFileArg.rfType : ResumeFileArg → Option String
  | ResumeFileArg.str _ => none
  | ResumeFileArg.file f => some f.type

/-- The wrapper `queueResumeParsingTask(resumeFile, metadata)`: builds
taskId "task:"++Date.now()++"-"++random suffix, stores a record with
status "queued" under it (2h TTL), lpushes the id onto
resume_parsing_queue and returns the id; on a store error it catches and
returns a fresh "local:"++Date.now() id with no record stored.  `nowMs` is
Date.now(), `rand` the random suffix, `nowIso` the ISO timestamp. -/
def queueResumeParsingTask (s : Store) (nowMs : Nat) (rand : String)
    (resumeFile : ResumeFileArg) (metadata : List (String × String))
    (nowIso : String) : QueueOut :=
  let taskId := "task:" ++ toString nowMs ++ "-" ++ rand
  if s.available then
    let taskData : Obj :=
      { Obj.empty with
          id := some taskId, status := some "queued",
          fileInfoName := resumeFile.rfName, fileInfoSize := resumeFile.rfSize,
          fileInfoType := resumeFile.rfType, metadata := some metadata,
          queuedAt := some nowIso }
    let s1 := setKv s taskId (StoredVal.obj taskData) 7200
    let s2 := { s1 with queue := taskId :: s1.queue }
    { store := s2, trace := [Event.cacheSet taskId, Event.queuePush taskId],
      taskId := taskId }
  else
    { store := s, trace := [Event.cacheSet taskId],
      taskId := "local:" ++ toString nowMs }

/-- The wrapper `getTaskStatus(taskId)`: returns null for an absent (or
falsy) entry.  For a stored record the store client has already
deserialized the JSON (the behavior the cache reader handles explicitly
with its typeof-object branch), so `JSON.parse(taskData)` here is applied
to an object, throws, and the catch returns
{status: "unknown", error: "Cache unavailable"} — the stored record itself
is never returned.  A raw stored string JSON.parse rejects, and a store
error, end in the same catch. -/
def getTaskStatus (s : Store) (taskId : String) : Option Obj :=
  let unknownObj : Obj :=
    { Obj.empty with status := some "unknown", extra := [("error", "Cache unavailable")] }
  if s.available then
    match s.kv taskId with
    | none => none
    | some (StoredVal.obj _, _) => some unknownObj
    | some (StoredVal.bad b, _) =>
      if b = "" then none else some unknownObj
  else
    some unknownObj

/-- The wrapper `updateTaskStatus(taskId, status, result)`: reads the
current record and returns false when absent; for a stored record the
store client hands back an already-deserialized object, `JSON.parse`
throws on it, and the catch returns false without writing — so this
function never mutates a stored task record (its status, updatedAt and
result arguments are dead).  A malformed stored string and a store error
end in the same catch. -/
def updateTaskStatus (s : Store) (taskId : String) (status : String)
    (result : Option String) (nowIso : String) : Store × Bool :=
  if s.available then
    match s.kv taskId with
    | none => (s, false)
    | some (StoredVal.obj _, _) => (s, false)
    | some (StoredVal.bad _, _) => (s, false)
  else
    (s, false)

/-- Binary64 significand normalization on an exact positive fraction a/b:
scale by powers of two (doubling a, or doubling b — never losing
exactness) until a/b lies in [2^52, 2^53), returning the scaled fraction
and the binary exponent.  The fuel bounds the scaling; 1100 covers the
normal double exponent range. -/
def flNorm : Nat → Nat → Nat → Int → Nat × Nat × Int
  | 0, a, b, e => (a, b, e)
  | fuel + 1, a, b, e =>
    if a < 2 ^ 52 * b then flNorm fuel (2 * a) b (e - 1)
    else if 2 ^ 53 * b ≤ a then flNorm fuel a (2 * b) (e + 1)
    else (a, b, e)

/-- Round the fraction a/b (b positive) to the nearest integer, ties to
even — the IEEE 754 default rounding applied to a significand. -/
def rneFrac (a b : Nat) : Nat :=
  let f := a / b
  let r := a - f * b
  if 2 * r < b then f
  else if b < 2 * r then f + 1
  else if f % 2 = 0 then f else f + 1

/-- The binary64 (JS number) value nearest the exact nonnegative fraction
a/b, returned as a dyadic pair (m, e) standing for m·2^e: the 53-bit
significand is rounded to nearest, ties to even.  Models normal-range
doubles — the range every value of this code lives in. -/
def flFrac (a b : Nat) : Nat × Int :=
  if a = 0 then (0, 0)
  else
    let p := flNorm 1100 a b 0
    (rneFrac p.1 p.2.1, p.2.2)

/-- A dyadic m·2^e as an exact fraction. -/
def dyadicFrac (m : Nat) (e : Int) : Nat × Nat :=
  if 0 ≤ e then (m * 2 ^ e.toNat, 1) else (m, 2 ^ (-e).toNat)

/-- JS Math.round of the nonnegative dyadic m·2^e: the nearest integer,
ties toward plus infinity, i.e. ⌊m·2^e + 1/2⌋. -/
def jsRoundDyadic (m : Nat) (e : Int) : Nat :=
  if 0 ≤ e then m * 2 ^ e.toNat
  else (2 * m + 2 ^ (-e).toNat) / 2 ^ ((-e).toNat + 1)

/-- The helper `calculateRate(hits, misses)`: 0 when there was no cache
traffic, else Math.round((hits / total) * 100) computed in JS double
arithmetic — the division and the multiplication are each correctly
rounded to binary64 (the counters themselves are exact doubles below
2^53), so the result can differ from the exact rational formula where a
rounding crosses a half-integer boundary. -/
def calculateRate (hits misses : Nat) : Int :=
  let total := hits + misses
  if total = 0 then 0
  else
    let x := flFrac hits total
    let xf := dyadicFrac (x.1 * 100) x.2
    let y := flFrac xf.1 xf.2
    (jsRoundDyadic y.1 y.2 : Int)

/-- The stats record `getProcessingStats` returns. -/
structure ProcessingStats where
  resumesProcessed : Nat
  cacheHits : Nat
  cacheMisses : Nat
  cacheOperations : Nat
  cacheHitRate : Int
deriving DecidableEq

/-- The wrapper `getProcessingStats()`: pipelined reads of the four
counters (parseInt(x || "0") makes an absent counter 0, which the total
counter map already encodes) and the derived hit rate; a store error is
caught and the hard-coded all-zero fallback record returned. -/
def getProcessingStats (s : Store) : ProcessingStats :=
  if s.available then
    { resumesProcessed := s.counters "counter:resumes_processed",
      cacheHits := s.counters "counter:cache_hits",
      cacheMisses := s.counters "counter:cache_misses",
      cacheOperations := s.counters "counter:cache_operations",
      cacheHitRate := calculateRate (s.counters "counter:cache_hits")
        (s.counters "counter:cache_misses") }
  else
    { resumesProcessed := 0, cacheHits := 0, cacheMisses := 0,
      cacheOperations := 0, cacheHitRate := 0 }

/-- api.js: the accepted MIME types for an upload. -/
def validTypes : List String :=
  ["application/pdf",
   "application/vnd.openxmlformats-officedocument.wordprocessingml.document",
   "application/msword",
   "text/plain"]

/-- api.js: the cache key derived for a file — the template string
`file.name ++ "-" ++ file.lastModified`.  The bytes of the file play no
role. -/
def fileKey (file : JSFile) : String :=
  file.name ++ "-" ++ toString file.lastModified

/-- The single-file gateway call `api.post("/api/resumes/upload", ...)`:
a response object, a 500 status, an error response carrying a detail
message, or another failure. -/
inductive GatewayReply where
  | ok (data : Obj)
  | err500
  | errDetail (detail : String)
  | errNetwork (msg : String)
deriving DecidableEq

/-- Result of a single upload: the store, the remote operations performed,
and the settled promise (ok payload or the thrown Error's message). -/
structure SingleOut where
  store : Store
  trace : List Event
  outcome : Except String Obj

/-- api.js `uploadResume(file, parse, saveToDb)`: rejects a missing or
size-0 file and an invalid MIME type before anything else; derives the
cache key, probes the cache and returns a cache hit tagged fromCache=true;
on a miss increments cache_misses, posts to the gateway, caches a response
carrying a truthy candidate_id and increments resumes_processed, and
returns the response tagged fromCache=false; gateway errors map to the
messages the catch block builds. -/
def uploadResume (gw : JSFile → GatewayReply) (s : Store) (file : Option JSFile)
    (parse saveToDb : Bool) : SingleOut :=
  match file with
  | none => { store := s, trace := [], outcome := Except.error "Invalid or empty file" }
  | some f =>
    if f.size = 0 then
      { store := s, trace := [], outcome := Except.error "Invalid or empty file" }
    else if f.type ∈ validTypes then
      let key := fileKey f
      let g := getCachedResumeResult s key
      match g.result with
      | some c =>
        { store := g.store, trace := g.trace,
          outcome := Except.ok { c with fromCache := some true } }
      | none =>
        let s1 := (incrementCounter g.store "cache_misses").1
        let ev := Event.gatewayPost "/api/resumes/upload" [f]
        match gw f with
        | GatewayReply.ok d =>
          if d.candidate_id.getD 0 ≠ 0 then
            let p := cacheResumeResult s1 key (some (PData.obj d))
            let s2 := (incrementCounter p.store "resumes_processed").1
            { store := s2, trace := g.trace ++ [ev] ++ p.trace,
              outcome := Except.ok { d with fromCache := some false } }
          else
            { store := s1, trace := g.trace ++ [ev],
              outcome := Except.ok { d with fromCache := some false } }
        | GatewayReply.err500 =>
          { store := s1, trace := g.trace ++ [ev],
            outcome := Except.error "The resume couldn't be processed. It may be invalid, corrupted, or not contain extractable text." }
        | GatewayReply.errDetail dd =>
          { store := s1, trace := g.trace ++ [ev], outcome := Except.error dd }
        | GatewayReply.errNetwork m =>
          { store := s1, trace := g.trace ++ [ev], outcome := Except.error m }
    else
      { store := s, trace := [],
        outcome := Except.error ("Invalid file type: " ++ f.type ++
          ". Please upload PDF, DOCX, DOC, TXT, or RTF.") }

/-- The response object of the batch gateway call (and of
uploadResumesBatch itself): aggregate counts and the per-file result
entries; fromCache / partialCache are the optional top-level flags the
client adds on its synthetic and merged responses. -/
structure BatchResponse where
  batch_id : String
  total_files : Nat
  successful : Nat
  failed : Nat
  duplicates : Nat
  results : List Obj
  fromCache : Option Bool
  partialCache : Option Bool
deriving DecidableEq

/-- Result of the cache-probing loop at the top of uploadResumesBatch. -/
structure CheckOut where
  store : Store
  trace : List Event
  cached : List Obj
  toProcess : List JSFile

/-- The first loop of uploadResumesBatch: probe the cache per file in
order; a hit is retagged (filename, status "success", fromCache true,
message) and collected, a miss increments cache_misses and queues the file
for processing. -/
def checkCacheLoop (s : Store) (files : List JSFile) : CheckOut :=
  match files with
  | [] => { store := s, trace := [], cached := [], toProcess := [] }
  | f :: rest =>
    let g := getCachedResumeResult s (fileKey f)
    match g.result with
    | some c =>
      let entry : Obj :=
        { c with
            filename := some f.name, status := some "success",
            fromCache := some true, message := some "Retrieved from cache" }
      let r := checkCacheLoop g.store rest
      { store := r.store, trace := g.trace ++ r.trace,
        cached := entry :: r.cached, toProcess := r.toProcess }
    | none =>
      let s1 := (incrementCounter g.store "cache_misses").1
      let r := checkCacheLoop s1 rest
      { store := r.store, trace := g.trace ++ r.trace,
        cached := r.cached, toProcess := f :: r.toProcess }

/-- The second loop of uploadResumesBatch: for each processed file, find
its result entry by filename; cache a success and increment
resumes_processed, increment resumes_failed for an error entry. -/
def writebackLoop (s : Store) (toProc : List JSFile) (results : List Obj) :
    Store × List Event :=
  match toProc with
  | [] => (s, [])
  | f :: rest =>
    match results.find? (fun r => r.filename == some f.name) with
    | some r =>
      if r.status = some "success" then
        let p := cacheResumeResult s (fileKey f) (some (PData.obj r))
        let s2 := (incrementCounter p.store "resumes_processed").1
        let w := writebackLoop s2 rest results
        (w.1, p.trace ++ w.2)
      else if r.status = some "error" then
        let s2 := (incrementCounter s "resumes_failed").1
        writebackLoop s2 rest results
      else
        writebackLoop s rest results
    | none => writebackLoop s rest results

/-- Result of a batch upload: store, trace and response. -/
structure BatchOut where
  store : Store
  trace : List Event
  resp : BatchResponse

/-- api.js `uploadResumesBatch(files, parse, saveToDb)`: probe the cache
for every file; when nothing needs processing, return the synthetic
all-cache response (duplicates hard-coded 0, fromCache true) without
calling the gateway; otherwise make the one batch gateway call on the
non-cached files, write successes back to the cache, and — when there were
cache hits — merge them in front of the gateway results, bumping
total_files and successful and tagging partialCache.  `now` is Date.now()
for the synthetic batch id. -/
def uploadResumesBatch (gw : List JSFile → BatchResponse) (now : Nat)
    (s : Store) (files : List JSFile) : BatchOut :=
  let chk := checkCacheLoop s files
  if chk.toProcess = [] then
    { store := chk.store, trace := chk.trace,
      resp := { batch_id := "cache-batch-" ++ toString now,
                total_files := files.length,
                successful := chk.cached.length,
                failed := 0, duplicates := 0,
                results := chk.cached,
                fromCache := some true, partialCache := none } }
  else
    let data := gw chk.toProcess
    let wb := writebackLoop chk.store chk.toProcess data.results
    let tr := chk.trace ++ [Event.gatewayPost "/api/batch/upload-resumes" chk.toProcess]
      ++ wb.2
    if chk.cached.length > 0 then
      { store := wb.1, trace := tr,
        resp := { data with
                  total_files := data.total_files + chk.cached.length,
                  successful := data.successful + chk.cached.length,
                  results := chk.cached ++ data.results,
                  partialCache := some true } }
    else
      { store := wb.1, trace := tr, resp := data }

/-- Result of the async batch submission: store, trace, the opaque
response fields and the locally generated task id merged over them. -/
structure AsyncOut where
  store : Store
  trace : List Event
  respData : List (String × String)
  task_id : String

/-- api.js `uploadResumesBatchAsync(files, parse, saveToDb)`: first awaits
queueResumeParsingTask("batch", {fileCount, saveToDb}) — creating the
queued task record — and only then posts to the async batch endpoint,
returning the response with the task id attached. -/
def uploadResumesBatchAsync (gwAsync : List JSFile → String → List (String × String))
    (s : Store) (nowMs : Nat) (rand : String) (nowIso : String)
    (files : List JSFile) (saveToDb : Bool) : AsyncOut :=
  let q := queueResumeParsingTask s nowMs rand (ResumeFileArg.str "batch")
    [("fileCount", toString files.length), ("saveToDb", toString saveToDb)] nowIso
  let ev := Event.gatewayPost "/api/batch/upload-resumes/async" files
  { store := q.store, trace := q.trace ++ [ev],
    respData := gwAsync files q.taskId, task_id := q.taskId }

/-- The derived cache key is never the empty string (it contains the dash
separator), so the falsy-id early return of the cache wrappers is never
taken for a real file. -/
lemma fileKey_ne_empty (f : JSFile) : fileKey f ≠ "" := by
  intro h
  have h2 := congrArg String.length h
  rw [fileKey, String.length_append, String.length_append] at h2
  have hd : ("-" : String).length = 1 := rfl
  have he : ("" : String).length = 0 := rfl
  rw [hd, he] at h2
  omega

lemma incrementCounter_fst_kv (s : Store) (c : String) :
    ((incrementCounter s c).1).kv = s.kv := by
  simp only [incrementCounter]
  split <;> rfl

lemma incrementCounter_fst_available (s : Store) (c : String) :
    ((incrementCounter s c).1).available = s.available := by
  simp only [incrementCounter]
  split <;> rfl

lemma getCachedResumeResult_store_kv (s : Store) (rid : String) :
    (getCachedResumeResult s rid).store.kv = s.kv := by
  simp only [getCachedResumeResult]
  split
  · rfl
  · split
    · split
      · rfl
      · exact incrementCounter_fst_kv _ _
      · split
        · rfl
        · rw [incrementCounter_fst_kv, incrementCounter_fst_kv]
    · exact incrementCounter_fst_kv _ _

lemma getCachedResumeResult_store_available (s : Store) (rid : String) :
    (getCachedResumeResult s rid).store.available = s.available := by
  simp only [getCachedResumeResult]
  split
  · rfl
  · split
    · split
      · rfl
      · exact incrementCounter_fst_available _ _
      · split
        · rfl
        · rw [incrementCounter_fst_available, incrementCounter_fst_available]
    · exact incrementCounter_fst_available _ _

/-- A file's probe hits the cache exactly when the store is reachable and
holds a well-formed object under "resume:" ++ its key. -/
def isHit (s : Store) (f : JSFile) : Bool :=
  s.available &&
    match s.kv ("resume:" ++ fileKey f) with
    | some (StoredVal.obj _, _) => true
    | _ => false

/-- The payload a hit returns (none on any miss path). -/
def hitObj (s : Store) (f : JSFile) : Option Obj :=
  if s.available then
    match s.kv ("resume:" ++ fileKey f) with
    | some (StoredVal.obj o, _) => some o
    | _ => none
  else none

/-- The retagged entry the batch loop collects for a cache hit. -/
def cachedEntry (s : Store) (f : JSFile) : Obj :=
  { (hitObj s f).getD Obj.empty with
      filename := some f.name, status := some "success",
      fromCache := some true, message := some "Retrieved from cache" }

lemma isHit_eq_of_kv_available {s1 s2 : Store} (hkv : s1.kv = s2.kv)
    (hav : s1.available = s2.available) (f : JSFile) : isHit s1 f = isHit s2 f := by
  unfold isHit
  rw [hkv, hav]

lemma hitObj_eq_of_kv_available {s1 s2 : Store} (hkv : s1.kv = s2.kv)
    (hav : s1.available = s2.available) (f : JSFile) : hitObj s1 f = hitObj s2 f := by
  unfold hitObj
  rw [hkv, hav]

lemma cachedEntry_eq_of_kv_available {s1 s2 : Store} (hkv : s1.kv = s2.kv)
    (hav : s1.available = s2.available) (f : JSFile) :
    cachedEntry s1 f = cachedEntry s2 f := by
  unfold cachedEntry
  rw [hitObj_eq_of_kv_available hkv hav]

/-- The cache probe of a file returns exactly its hit payload. -/
lemma getCachedResumeResult_result_eq (s : Store) (f : JSFile) :
    (getCachedResumeResult s (fileKey f)).result = hitObj s f := by
  simp only [getCachedResumeResult, hitObj]
  rw [if_neg (fileKey_ne_empty f)]
  cases hav : s.available
  · simp
  · cases hkv : s.kv ("resume:" ++ fileKey f) with
    | none => simp
    | some val =>
      obtain ⟨v, ttl⟩ := val
      cases v with
      | obj o => simp
      | bad b =>
        simp only [if_true]
        split <;> rfl

lemma isHit_true_iff (s : Store) (f : JSFile) :
    isHit s f = true ↔ (hitObj s f).isSome := by
  unfold isHit hitObj
  cases hav : s.available <;> simp <;> split <;> simp_all

/-- The probe's trace holds no gateway call. -/
def isGatewayEvent : Event → Bool
  | Event.gatewayPost _ _ => true
  | _ => false

lemma getCachedResumeResult_trace_sub (s : Store) (rid : String) :
    (getCachedResumeResult s rid).trace = [] ∨
    (getCachedResumeResult s rid).trace = [Event.cacheGet ("resume:" ++ rid)] := by
  simp only [getCachedResumeResult]
  split
  · exact Or.inl rfl
  · split
    · split
      · exact Or.inr rfl
      · exact Or.inr rfl
      · split
        · exact Or.inr rfl
        · exact Or.inr rfl
    · exact Or.inr rfl

lemma getCachedResumeResult_trace_no_gw (s : Store) (rid : String) :
    ∀ e ∈ (getCachedResumeResult s rid).trace, isGatewayEvent e = false := by
  intro e he
  rcases getCachedResumeResult_trace_sub s rid with h | h <;> rw [h] at he
  · simp at he
  · simp at he
    subst he
    rfl

/-- The probing loop leaves the keyspace and reachability unchanged (it
only touches counters). -/
lemma checkCacheLoop_store (files : List JSFile) : ∀ s : Store,
    (checkCacheLoop s files).store.kv = s.kv ∧
    (checkCacheLoop s files).store.available = s.available := by
  induction files with
  | nil => intro s; exact ⟨rfl, rfl⟩
  | cons f rest ih =>
    intro s
    simp only [checkCacheLoop]
    cases hres : (getCachedResumeResult s (fileKey f)).result with
    | some c =>
      have h1 := ih (getCachedResumeResult s (fileKey f)).store
      rw [getCachedResumeResult_store_kv, getCachedResumeResult_store_available] at h1
      exact h1
    | none =>
      have h1 := ih ((incrementCounter (getCachedResumeResult s (fileKey f)).store
        "cache_misses").1)
      rw [incrementCounter_fst_kv, incrementCounter_fst_available,
        getCachedResumeResult_store_kv, getCachedResumeResult_store_available] at h1
      exact h1

/-- What the probing loop produces: the hits in order, retagged, and the
misses in order, with no gateway call in its trace.  The hit set is
decided by the initial store because the loop never writes the keyspace. -/
lemma checkCacheLoop_spec (files : List JSFile) : ∀ s : Store,
    (checkCacheLoop s files).cached =
      (files.filter (fun f => isHit s f)).map (cachedEntry s) ∧
    (checkCacheLoop s files).toProcess = files.filter (fun f => !(isHit s f)) ∧
    ∀ e ∈ (checkCacheLoop s files).trace, isGatewayEvent e = false := by
  induction files with
  | nil =>
    intro s
    refine ⟨rfl, rfl, ?_⟩
    intro e he
    simp [checkCacheLoop] at he
  | cons f rest ih =>
    intro s
    have hkv := getCachedResumeResult_store_kv s (fileKey f)
    have hav := getCachedResumeResult_store_available s (fileKey f)
    simp only [checkCacheLoop]
    rw [getCachedResumeResult_result_eq]
    cases hh : hitObj s f with
    | some c =>
      have hhit : isHit s f = true := by
        rw [isHit_true_iff, hh]
        rfl
      have hIs : isHit (getCachedResumeResult s (fileKey f)).store = isHit s :=
        funext fun x => isHit_eq_of_kv_available hkv hav x
      have hCe : cachedEntry (getCachedResumeResult s (fileKey f)).store = cachedEntry s :=
        funext fun x => cachedEntry_eq_of_kv_available hkv hav x
      obtain ⟨ih1, ih2, ih3⟩ := ih (getCachedResumeResult s (fileKey f)).store
      rw [hIs, hCe] at ih1
      rw [hIs] at ih2
      refine ⟨?_, ?_, ?_⟩
      · rw [ih1, List.filter_cons, if_pos (by rw [hhit]), List.map_cons]
        have : cachedEntry s f =
            { c with
                filename := some f.name, status := some "success",
                fromCache := some true, message := some "Retrieved from cache" } := by
          unfold cachedEntry
          rw [hh]
          rfl
        rw [this]
      · rw [ih2, List.filter_cons, hhit]
        rfl
      · intro e he
        rw [List.mem_append] at he
        rcases he with he | he
        · exact getCachedResumeResult_trace_no_gw s (fileKey f) e he
        · exact ih3 e he
    | none =>
      have hmiss : isHit s f = false := by
        have h2 := isHit_true_iff s f
        rw [hh] at h2
        simpa using h2
      have hkv2 : ((incrementCounter (getCachedResumeResult s (fileKey f)).store
          "cache_misses").1).kv = s.kv := by
        rw [incrementCounter_fst_kv, hkv]
      have hav2 : ((incrementCounter (getCachedResumeResult s (fileKey f)).store
          "cache_misses").1).available = s.available := by
        rw [incrementCounter_fst_available, hav]
      have hIs : isHit ((incrementCounter (getCachedResumeResult s (fileKey f)).store
          "cache_misses").1) = isHit s := funext fun x => isHit_eq_of_kv_available hkv2 hav2 x
      have hCe : cachedEntry ((incrementCounter (getCachedResumeResult s (fileKey f)).store
          "cache_misses").1) = cachedEntry s :=
        funext fun x => cachedEntry_eq_of_kv_available hkv2 hav2 x
      obtain ⟨ih1, ih2, ih3⟩ := ih ((incrementCounter
        (getCachedResumeResult s (fileKey f)).store "cache_misses").1)
      rw [hIs, hCe] at ih1
      rw [hIs] at ih2
      refine ⟨?_, ?_, ?_⟩
      · rw [ih1, List.filter_cons, hmiss]
        rfl
      · rw [ih2, List.filter_cons]
        rw [if_pos (by rw [hmiss]; rfl)]
      · intro e he
        rw [List.mem_append] at he
        rcases he with he | he
        · exact getCachedResumeResult_trace_no_gw s (fileKey f) e he
        · exact ih3 e he

lemma cacheResumeResult_trace_no_gw (s : Store) (rid : String) (pd : Option PData) :
    ∀ e ∈ (cacheResumeResult s rid pd).trace, isGatewayEvent e = false := by
  intro e he
  simp only [cacheResumeResult] at he
  split at he
  · simp at he
  · split at he
    · simp at he
    · split at he <;> (simp at he; subst he; rfl)

/-- The write-back loop performs cache writes and counter bumps only — no
gateway call. -/
lemma writebackLoop_trace_no_gw (toProc : List JSFile) (results : List Obj) :
    ∀ s : Store, ∀ e ∈ (writebackLoop s toProc results).2, isGatewayEvent e = false := by
  induction toProc with
  | nil => intro s e he; simp [writebackLoop] at he
  | cons f rest ih =>
    intro s e he
    simp only [writebackLoop] at he
    split at he
    · split at he
      · rw [List.mem_append] at he
        rcases he with he | he
        · exact cacheResumeResult_trace_no_gw _ _ _ e he
        · exact ih _ e he
      · split at he
        · exact ih _ e he
        · exact ih _ e he
    · exact ih _ e he

/-- C1 (amended).  For a batch in which at least one file misses the cache,
under the gateway contract (one result entry per submitted file, named
after it and not tagged fromCache) and pairwise-distinct input filenames:
the response lists every input file exactly once, exactly the cache hits
are flagged fromCache=true, and the trace holds exactly one gateway call,
on precisely the files that missed the cache.  The all-cached batch makes
no gateway call (the claim's "exactly one call" fails there, see the
counterexample); that short-circuit case is settled with C2. -/
theorem c1_batch_dedup_amended (gw : List JSFile → BatchResponse) (now : Nat)
    (s : Store) (files : List JSFile)
    (hnames : (files.map JSFile.name).Nodup)
    (hgw_names : ∀ fs, (gw fs).results.map Obj.filename = fs.map (fun f => some f.name))
    (hgw_tag : ∀ fs, ∀ r ∈ (gw fs).results, r.fromCache = none)
    (hmiss : files.filter (fun f => !(isHit s f)) ≠ []) :
    List.Perm ((uploadResumesBatch gw now s files).resp.results.map Obj.filename)
      (files.map (fun f => some f.name)) ∧
    ((uploadResumesBatch gw now s files).resp.results.map Obj.filename).Nodup ∧
    (uploadResumesBatch gw now s files).resp.results.countP
      (fun r => r.fromCache == some true) =
      (files.filter (fun f => isHit s f)).length ∧
    (uploadResumesBatch gw now s files).trace.filter isGatewayEvent =
      [Event.gatewayPost "/api/batch/upload-resumes"
        (files.filter (fun f => !(isHit s f)))] := by
  obtain ⟨hc, hp, ht⟩ := checkCacheLoop_spec files s
  have hR : (uploadResumesBatch gw now s files).resp.results =
      (files.filter (fun f => isHit s f)).map (cachedEntry s) ++
        (gw (files.filter (fun f => !(isHit s f)))).results := by
    simp only [uploadResumesBatch]
    rw [hp, hc, if_neg hmiss]
    split
    · rfl
    · rename_i hlen
      have h0 : ((files.filter (fun f => isHit s f)).map (cachedEntry s)).length = 0 := by
        omega
      rw [List.length_eq_zero] at h0
      rw [h0]
      rfl
  have hT : (uploadResumesBatch gw now s files).trace =
      (checkCacheLoop s files).trace ++
        [Event.gatewayPost "/api/batch/upload-resumes"
          (files.filter (fun f => !(isHit s f)))] ++
        (writebackLoop (checkCacheLoop s files).store
          (files.filter (fun f => !(isHit s f)))
          (gw (files.filter (fun f => !(isHit s f)))).results).2 := by
    simp only [uploadResumesBatch]
    rw [hp, hc, if_neg hmiss]
    split
    · rfl
    · rfl
  have hmap1 : ((files.filter (fun f => isHit s f)).map (cachedEntry s)).map Obj.filename
      = (files.filter (fun f => isHit s f)).map (fun f => some f.name) := by
    rw [List.map_map]
    rfl
  have hperm : List.Perm ((uploadResumesBatch gw now s files).resp.results.map Obj.filename)
      (files.map (fun f => some f.name)) := by
    rw [hR, List.map_append, hmap1, hgw_names, ← List.map_append]
    exact (List.filter_append_perm (fun f => isHit s f) files).map (fun f => some f.name)
  refine ⟨hperm, ?_, ?_, ?_⟩
  · apply hperm.nodup_iff.2
    have hx : files.map (fun f => some f.name) = (files.map JSFile.name).map some := by
      rw [List.map_map]
      rfl
    rw [hx]
    exact hnames.map (fun a b h2 => Option.some.inj h2)
  · rw [hR, List.countP_append]
    have h1 : ((files.filter (fun f => isHit s f)).map (cachedEntry s)).countP
        (fun r => r.fromCache == some true) =
        ((files.filter (fun f => isHit s f)).map (cachedEntry s)).length := by
      apply List.countP_eq_length.2
      intro a ha
      rw [List.mem_map] at ha
      obtain ⟨f, _, rfl⟩ := ha
      rfl
    have h2 : ((gw (files.filter (fun f => !(isHit s f)))).results).countP
        (fun r => r.fromCache == some true) = 0 := by
      apply List.countP_eq_zero.2
      intro r hr
      rw [hgw_tag _ r hr]
      simp
    rw [h1, h2, List.length_map]
    omega
  · rw [hT, List.filter_append, List.filter_append]
    have h1 : (checkCacheLoop s files).trace.filter isGatewayEvent = [] :=
      List.filter_eq_nil_iff.2 (fun e he => by rw [ht e he]; simp)
    have h2 : (writebackLoop (checkCacheLoop s files).store
        (files.filter (fun f => !(isHit s f)))
        (gw (files.filter (fun f => !(isHit s f)))).results).2.filter isGatewayEvent
        = [] :=
      List.filter_eq_nil_iff.2
        (fun e he => by rw [writebackLoop_trace_no_gw _ _ _ e he]; simp)
    rw [h1, h2]
    rfl

/-- C2 (amended).  When every file of the batch hits the cache the gateway
is never called and the synthetic response reports total = N,
successful = N, failed = 0 and fromCache = true — but duplicates is the
hard-coded 0, not the number of cache hits (see the counterexample). -/
theorem c2_all_cached_amended (gw : List JSFile → BatchResponse) (now : Nat)
    (s : Store) (files : List JSFile)
    (hall : ∀ f ∈ files, isHit s f = true) :
    (uploadResumesBatch gw now s files).trace.filter isGatewayEvent = [] ∧
    (uploadResumesBatch gw now s files).resp.total_files = files.length ∧
    (uploadResumesBatch gw now s files).resp.successful = files.length ∧
    (uploadResumesBatch gw now s files).resp.failed = 0 ∧
    (uploadResumesBatch gw now s files).resp.duplicates = 0 ∧
    (uploadResumesBatch gw now s files).resp.fromCache = some true := by
  obtain ⟨hc, hp, ht⟩ := checkCacheLoop_spec files s
  have hp2 : files.filter (fun f => !(isHit s f)) = [] :=
    List.filter_eq_nil_iff.2 (fun f hf => by rw [hall f hf]; simp)
  have hfs : files.filter (fun f => isHit s f) = files :=
    List.filter_eq_self.2 hall
  simp only [uploadResumesBatch]
  rw [hp, hp2, if_pos rfl]
  refine ⟨?_, rfl, ?_, rfl, rfl, rfl⟩
  · exact List.filter_eq_nil_iff.2 (fun e he => by rw [ht e he]; simp)
  · rw [hc, List.length_map, hfs]

/-- A pre-cached file used in the concrete instances below; its cache key
is "a-0", so the store fixture holds an object under "resume:a-0". -/
def fA : JSFile :=
  { name := "a", size := 200, lastModified := 0, type := "application/pdf",
    content := [0] }

/-- A second file, not cached in the store fixture. -/
def fB : JSFile :=
  { name := "b", size := 300, lastModified := 0, type := "application/pdf",
    content := [1] }

/-- The payload cached for fA in the store fixture. -/
def cA : Obj :=
  { Obj.empty with candidate_id := some 1, filename := some "a" }

/-- A reachable store holding exactly one cached parse result, for fA. -/
def sW : Store :=
  { kv := fun k => if k = "resume:a-0" then some (StoredVal.obj cA, 86400) else none,
    counters := fun _ => 0, queue := [], available := true }

/-- A concrete batch gateway obeying the contract: one success entry per
submitted file, named after it, with no fromCache tag. -/
def gwW : List JSFile → BatchResponse :=
  fun fs =>
    { batch_id := "batch-1", total_files := fs.length, successful := fs.length,
      failed := 0, duplicates := 0,
      results := fs.map (fun f =>
        { Obj.empty with filename := some f.name, status := some "success" }),
      fromCache := none, partialCache := none }

lemma gwW_names (fs : List JSFile) :
    (gwW fs).results.map Obj.filename = fs.map (fun f => some f.name) := by
  simp only [gwW]
  rw [List.map_map]
  rfl

lemma gwW_tag (fs : List JSFile) : ∀ r ∈ (gwW fs).results, r.fromCache = none := by
  intro r hr
  simp only [gwW] at hr
  rw [List.mem_map] at hr
  obtain ⟨f, _, rfl⟩ := hr
  rfl

/-- C1 witness: the two-file batch with one pre-cached file, at the
concrete gateway and store fixtures. -/
theorem c1_batch_dedup_witness :
    List.Perm ((uploadResumesBatch gwW 0 sW [fA, fB]).resp.results.map Obj.filename)
      ([fA, fB].map (fun f => some f.name)) ∧
    ((uploadResumesBatch gwW 0 sW [fA, fB]).resp.results.map Obj.filename).Nodup ∧
    (uploadResumesBatch gwW 0 sW [fA, fB]).resp.results.countP
      (fun r => r.fromCache == some true) =
      ([fA, fB].filter (fun f => isHit sW f)).length ∧
    (uploadResumesBatch gwW 0 sW [fA, fB]).trace.filter isGatewayEvent =
      [Event.gatewayPost "/api/batch/upload-resumes"
        ([fA, fB].filter (fun f => !(isHit sW f)))] :=
  c1_batch_dedup_amended gwW 0 sW [fA, fB] (by decide) gwW_names gwW_tag (by decide)

/-- C1 counterexample: a batch whose every file (N = M = 1) is cached makes
zero gateway calls, not the "exactly one" of the claim. -/
theorem c1_single_call_counterexample :
    ((uploadResumesBatch gwW 0 sW [fA]).trace.filter isGatewayEvent).length = 0 ∧
    (uploadResumesBatch gwW 0 sW [fA]).resp.total_files = 1 ∧
    (uploadResumesBatch gwW 0 sW [fA]).resp.results.countP
      (fun r => r.fromCache == some true) = 1 ∧
    ((uploadResumesBatch gwW 0 sW [fA]).trace.filter isGatewayEvent).length ≠ 1 := by
  refine ⟨rfl, rfl, rfl, ?_⟩
  decide

/-- C2 witness: the all-cached one-file batch at the concrete fixtures. -/
theorem c2_all_cached_witness :
    (uploadResumesBatch gwW 0 sW [fA]).trace.filter isGatewayEvent = [] ∧
    (uploadResumesBatch gwW 0 sW [fA]).resp.total_files = [fA].length ∧
    (uploadResumesBatch gwW 0 sW [fA]).resp.successful = [fA].length ∧
    (uploadResumesBatch gwW 0 sW [fA]).resp.failed = 0 ∧
    (uploadResumesBatch gwW 0 sW [fA]).resp.duplicates = 0 ∧
    (uploadResumesBatch gwW 0 sW [fA]).resp.fromCache = some true :=
  c2_all_cached_amended gwW 0 sW [fA] (by decide)

/-- C2 counterexample: the all-cached one-file batch had one cache hit
(one result flagged fromCache), yet reports duplicates = 0 — the
duplicates count does not equal the number of cache hits. -/
theorem c2_duplicates_counterexample :
    (uploadResumesBatch gwW 0 sW [fA]).resp.duplicates = 0 ∧
    (uploadResumesBatch gwW 0 sW [fA]).resp.results.countP
      (fun r => r.fromCache == some true) = 1 ∧
    (uploadResumesBatch gwW 0 sW [fA]).resp.duplicates ≠
      (uploadResumesBatch gwW 0 sW [fA]).resp.results.countP
        (fun r => r.fromCache == some true) := by
  refine ⟨rfl, rfl, ?_⟩
  decide

lemma incrementCounter_counters_same (s : Store) (c : String)
    (hav : s.available = true) :
    ((incrementCounter s c).1).counters ("counter:" ++ c) =
      s.counters ("counter:" ++ c) + 1 := by
  simp only [incrementCounter, hav]
  simp

lemma incrementCounter_counters_other (s : Store) (c other : String)
    (hne : other ≠ "counter:" ++ c) :
    ((incrementCounter s c).1).counters other = s.counters other := by
  simp only [incrementCounter]
  split
  · simp [hne]
  · rfl

/-- C3 (amended).  A cache read that returns a payload has incremented
cache_hits exactly once and left cache_misses unchanged; but a plain miss
(reachable store, no value under the key) performs no increment at all and
returns null — the cache_misses bump for that case lives in the callers
(uploadResume / uploadResumesBatch), not in getCachedResumeResult. -/
theorem c3_cache_read_accounting (s : Store) (rid : String) :
    (∀ o, (getCachedResumeResult s rid).result = some o →
      (getCachedResumeResult s rid).store.counters "counter:cache_hits" =
        s.counters "counter:cache_hits" + 1 ∧
      (getCachedResumeResult s rid).store.counters "counter:cache_misses" =
        s.counters "counter:cache_misses") ∧
    (s.available = true → rid ≠ "" → s.kv ("resume:" ++ rid) = none →
      (getCachedResumeResult s rid).result = none ∧
      (getCachedResumeResult s rid).store.counters = s.counters) := by
  constructor
  · intro o ho
    by_cases hrid : rid = ""
    · simp only [getCachedResumeResult, if_pos hrid] at ho
      simp at ho
    · simp only [getCachedResumeResult, if_neg hrid] at ho ⊢
      cases hav : s.available
      · rw [hav] at ho
        simp at ho
      · rw [hav] at ho
        rw [if_pos rfl] at ho ⊢
        cases hkv : s.kv ("resume:" ++ rid) with
        | none =>
          rw [hkv] at ho
          simp at ho
        | some val =>
          obtain ⟨v, ttl⟩ := val
          cases v with
          | obj o2 =>
            constructor
            · have h1 := incrementCounter_counters_same s "cache_hits" hav
              have e1 : ("counter:" ++ "cache_hits" : String) = "counter:cache_hits" := rfl
              rw [e1] at h1
              exact h1
            · exact incrementCounter_counters_other s "cache_hits"
                "counter:cache_misses" (by decide)
          | bad b =>
            rw [hkv] at ho
            by_cases hb : b = "" <;> simp [hb] at ho
  · intro hav hrid hkv
    simp only [getCachedResumeResult, if_neg hrid]
    rw [hav, hkv]
    exact ⟨rfl, rfl⟩

/-- An empty, reachable store with zeroed counters. -/
def sEmpty : Store :=
  { kv := fun _ => none, counters := fun _ => 0, queue := [], available := true }

/-- C3 counterexample: a plain miss (reachable store, key absent) returns
no payload and leaves cache_misses at 0 — getCachedResumeResult did not
increment it once as the claim states. -/
theorem c3_plain_miss_counterexample :
    (getCachedResumeResult sEmpty "a-0").result = none ∧
    (getCachedResumeResult sEmpty "a-0").store.counters "counter:cache_misses" = 0 ∧
    sEmpty.counters "counter:cache_misses" = 0 :=
  ⟨rfl, rfl, rfl⟩

/-- C4 (amended).  The derived hit rate is Math.round((hits/total)*100)
computed in binary64 arithmetic: it is 0 when both counters are 0 (and
whenever hits is 0), and matches the spec's example 3 hits / 1 miss → 75 —
but it does not equal the exact round(100·hits/(hits+misses)) universally:
at 23 hits and 17 misses the double evaluation gives 57.49999999999999,
so the program returns 57 while the exact formula rounds 57.5 to 58. -/
theorem c4_hit_rate_amended :
    calculateRate 0 0 = 0 ∧
    (∀ misses : Nat, calculateRate 0 misses = 0) ∧
    calculateRate 3 1 = 75 ∧
    calculateRate 23 17 = 57 ∧
    calculateRate 23 17 ≠ round ((100 * (23 : ℚ)) / ((23 : ℚ) + (17 : ℚ))) := by
  refine ⟨rfl, ?_, by decide, by decide, ?_⟩
  · intro m
    simp only [calculateRate]
    split
    · rfl
    · rfl
  · have h1 : calculateRate 23 17 = 57 := by decide
    have h2 : round ((100 * (23 : ℚ)) / ((23 : ℚ) + (17 : ℚ))) = 58 := by
      norm_num [round_eq]
    rw [h1, h2]
    decide

/-- C4 counterexample: at 23 hits and 17 misses the program computes
Math.round((23/40)*100) on doubles, where (23/40)*100 = 57.49999999999999,
returning 57; the claim's exact formula round(100·23/(23+17)) =
round(57.5) = 58. -/
theorem c4_float_rounding_counterexample :
    calculateRate 23 17 = 57 ∧
    round ((100 * (23 : ℚ)) / ((23 : ℚ) + (17 : ℚ))) = 58 := by
  constructor
  · decide
  · norm_num [round_eq]

/-- C5 (amended).  The fingerprint is a pure function of the file's name
and lastModified only: any two files agreeing on those two fields — whatever
their bytes — receive the same key. -/
theorem c5_fingerprint_name_mtime (f g : JSFile)
    (h1 : f.name = g.name) (h2 : f.lastModified = g.lastModified) :
    fileKey f = fileKey g := by
  unfold fileKey
  rw [h1, h2]

/-- fA with different bytes but the same name and lastModified. -/
def fAalt : JSFile :=
  { name := "a", size := 200, lastModified := 0, type := "application/pdf",
    content := [7] }

/-- C5 witness: two concrete files agreeing on name and lastModified get
the same fingerprint. -/
theorem c5_fingerprint_witness : fileKey fA = fileKey fAalt :=
  c5_fingerprint_name_mtime fA fAalt rfl rfl

/-- C5 counterexample: two files with different content but equal name and
lastModified collide deterministically — the fingerprint is not (even
near-certainly) distinct for differing content, because the bytes never
enter the key. -/
theorem c5_content_counterexample :
    fileKey fA = fileKey fAalt ∧ fA.content ≠ fAalt.content :=
  ⟨rfl, by decide⟩

/-- C6.  With the backing store unreachable, a cache put returns the soft
failure flag false, a cache get returns null, and a single upload still
succeeds end to end: it proceeds to the gateway and returns its payload
tagged fromCache=false — the request never fails because of the cache. -/
theorem c6_cache_soft_failure (s : Store) (rid : String) (o : Obj) (f : JSFile)
    (gw : JSFile → GatewayReply) (d : Obj)
    (hdown : s.available = false) (hrid : rid ≠ "")
    (hsize : f.size ≠ 0) (htype : f.type ∈ validTypes)
    (hgw : gw f = GatewayReply.ok d) :
    (cacheResumeResult s rid (some (PData.obj o))).result = some false ∧
    (getCachedResumeResult s rid).result = none ∧
    (uploadResume gw s (some f) true true).outcome =
      Except.ok { d with fromCache := some false } := by
  have hget : ∀ rid2 : String, rid2 ≠ "" →
      (getCachedResumeResult s rid2).result = none := by
    intro rid2 hr2
    simp only [getCachedResumeResult, if_neg hr2]
    rw [hdown]
    rfl
  refine ⟨?_, hget rid hrid, ?_⟩
  · simp only [cacheResumeResult]
    rw [if_neg (by simp [hrid])]
    rw [hdown]
    rfl
  · simp only [uploadResume]
    rw [if_neg hsize, if_pos htype, hget (fileKey f) (fileKey_ne_empty f), hgw]
    dsimp only
    split <;> rfl

/-- An unreachable store. -/
def sDownW : Store :=
  { kv := fun _ => none, counters := fun _ => 0, queue := [], available := false }

/-- The gateway payload of the single-upload fixtures. -/
def dW : Obj :=
  { Obj.empty with candidate_id := some 2, filename := some "a" }

/-- A concrete single-file gateway that always succeeds with dW. -/
def gwS : JSFile → GatewayReply := fun _ => GatewayReply.ok dW

/-- C6 witness: the soft-failure behavior at a concrete unreachable store,
file and gateway. -/
theorem c6_soft_failure_witness :
    (cacheResumeResult sDownW "a-0" (some (PData.obj cA))).result = some false ∧
    (getCachedResumeResult sDownW "a-0").result = none ∧
    (uploadResume gwS sDownW (some fA) true true).outcome =
      Except.ok { dW with fromCache := some false } :=
  c6_cache_soft_failure sDownW "a-0" cA fA gwS dW rfl (by decide) (by decide)
    (by decide) rfl

/-- The status field of the record stored under a key, when it is an
object (the observation a poller makes through the task tracker). -/
def storedStatus (s : Store) (key : String) : Option String :=
  match s.kv key with
  | some (StoredVal.obj o, _) => o.status
  | _ => none

/-- C7.  Once a task's status has reached a terminal state, no subsequent
updateTaskStatus call changes it — indeed updateTaskStatus never mutates
any stored record: the store client returns records as already-parsed
objects, `JSON.parse` throws on them, and every call is caught and returns
false with the store untouched.  So a terminal record's stored status (like
every other record's) is immutable under updateTaskStatus. -/
theorem c7_terminal_status_immutable (s : Store) (tid newStatus : String)
    (res : Option String) (iso : String) :
    (updateTaskStatus s tid newStatus res iso).1 = s ∧
    (updateTaskStatus s tid newStatus res iso).2 = false ∧
    storedStatus ((updateTaskStatus s tid newStatus res iso).1) tid =
      storedStatus s tid := by
  have h : updateTaskStatus s tid newStatus res iso = (s, false) := by
    simp only [updateTaskStatus]
    split
    · split <;> rfl
    · rfl
  rw [h]
  exact ⟨rfl, rfl, rfl⟩

/-- C8 (amended).  With the tracker store reachable, the async submission
stores a record with status "queued" under the returned task id strictly
before the gateway request event — but a client polling that id through
getTaskStatus does not receive the queued record: the poll returns the
{status: "unknown", error: "Cache unavailable"} fallback, because
getTaskStatus's JSON.parse throws on the already-deserialized object the
store client hands back (see the counterexample). -/
theorem c8_task_created_before_gateway_amended
    (gwA : List JSFile → String → List (String × String)) (s : Store)
    (nowMs : Nat) (rand : String) (iso : String) (files : List JSFile)
    (sdb : Bool) (hav : s.available = true) :
    storedStatus (uploadResumesBatchAsync gwA s nowMs rand iso files sdb).store
      (uploadResumesBatchAsync gwA s nowMs rand iso files sdb).task_id =
      some "queued" ∧
    (∃ i j : Nat, i < j ∧
      (uploadResumesBatchAsync gwA s nowMs rand iso files sdb).trace[i]? =
        some (Event.cacheSet
          (uploadResumesBatchAsync gwA s nowMs rand iso files sdb).task_id) ∧
      (uploadResumesBatchAsync gwA s nowMs rand iso files sdb).trace[j]? =
        some (Event.gatewayPost "/api/batch/upload-resumes/async" files)) ∧
    Option.map Obj.status
      (getTaskStatus (uploadResumesBatchAsync gwA s nowMs rand iso files sdb).store
        (uploadResumesBatchAsync gwA s nowMs rand iso files sdb).task_id) =
      some (some "unknown") := by
  simp only [uploadResumesBatchAsync, queueResumeParsingTask]
  rw [hav, if_pos rfl]
  refine ⟨?_, ⟨0, 2, by omega, rfl, rfl⟩, ?_⟩
  · simp only [storedStatus, setKv]
    simp
  · simp only [getTaskStatus, setKv]
    rw [hav, if_pos rfl]
    rfl

/-- C8 witness: the stored queued record, the ordering and the (fallback)
poll at concrete inputs. -/
theorem c8_task_created_before_gateway_witness :
    storedStatus
      (uploadResumesBatchAsync (fun _ _ => []) sEmpty 1 "r" "t" [fB] true).store
      (uploadResumesBatchAsync (fun _ _ => []) sEmpty 1 "r" "t" [fB] true).task_id =
      some "queued" ∧
    (∃ i j : Nat, i < j ∧
      (uploadResumesBatchAsync (fun _ _ => []) sEmpty 1 "r" "t" [fB] true).trace[i]? =
        some (Event.cacheSet
          (uploadResumesBatchAsync (fun _ _ => []) sEmpty 1 "r" "t" [fB] true).task_id) ∧
      (uploadResumesBatchAsync (fun _ _ => []) sEmpty 1 "r" "t" [fB] true).trace[j]? =
        some (Event.gatewayPost "/api/batch/upload-resumes/async" [fB])) ∧
    Option.map Obj.status
      (getTaskStatus
        (uploadResumesBatchAsync (fun _ _ => []) sEmpty 1 "r" "t" [fB] true).store
        (uploadResumesBatchAsync (fun _ _ => []) sEmpty 1 "r" "t" [fB] true).task_id) =
      some (some "unknown") :=
  c8_task_created_before_gateway_amended (fun _ _ => []) sEmpty 1 "r" "t" [fB] true rfl

/-- C8 counterexample: at a concrete submission the queued record is in
the tracker store, yet the poll through getTaskStatus returns the
unknown-status fallback — not the valid queued record the claim
promises. -/
theorem c8_poll_unknown_counterexample :
    storedStatus
      (uploadResumesBatchAsync (fun _ _ => []) sEmpty 1 "r" "t" [fB] true).store
      (uploadResumesBatchAsync (fun _ _ => []) sEmpty 1 "r" "t" [fB] true).task_id =
      some "queued" ∧
    Option.map Obj.status
      (getTaskStatus
        (uploadResumesBatchAsync (fun _ _ => []) sEmpty 1 "r" "t" [fB] true).store
        (uploadResumesBatchAsync (fun _ _ => []) sEmpty 1 "r" "t" [fB] true).task_id) =
      some (some "unknown") ∧
    Option.map Obj.status
      (getTaskStatus
        (uploadResumesBatchAsync (fun _ _ => []) sEmpty 1 "r" "t" [fB] true).store
        (uploadResumesBatchAsync (fun _ _ => []) sEmpty 1 "r" "t" [fB] true).task_id) ≠
      some (some "queued") := by
  refine ⟨?_, ?_, ?_⟩ <;> decide

/-- C9 (amended).  When the stats read fails, getProcessingStats returns
the hard-coded all-zero record — the very record the zero-activity state
produces — so the unavailable state is not distinguishable from zero
activity (see the counterexample). -/
theorem c9_stats_fallback_amended (s : Store) (hdown : s.available = false) :
    getProcessingStats s =
      { resumesProcessed := 0, cacheHits := 0, cacheMisses := 0,
        cacheOperations := 0, cacheHitRate := 0 } ∧
    getProcessingStats s = getProcessingStats sEmpty := by
  have h1 : getProcessingStats s =
      { resumesProcessed := 0, cacheHits := 0, cacheMisses := 0,
        cacheOperations := 0, cacheHitRate := 0 } := by
    simp only [getProcessingStats]
    rw [hdown]
    rfl
  exact ⟨h1, by rw [h1]; rfl⟩

/-- An unreachable store whose (unreadable) counters are non-zero: real
activity happened, but the stats read fails. -/
def sDownBusy : Store :=
  { kv := fun _ => none,
    counters := fun k => if k = "counter:cache_hits" then 5 else 7,
    queue := [], available := false }

/-- C9 witness: the fallback at the concrete unreachable store. -/
theorem c9_stats_fallback_witness :
    getProcessingStats sDownBusy =
      { resumesProcessed := 0, cacheHits := 0, cacheMisses := 0,
        cacheOperations := 0, cacheHitRate := 0 } ∧
    getProcessingStats sDownBusy = getProcessingStats sEmpty :=
  c9_stats_fallback_amended sDownBusy rfl

/-- C9 counterexample: a store that is down (with non-zero underlying
counters) and a live store with zero activity produce identical stats
records — the "unavailable" state is not distinguishable. -/
theorem c9_indistinguishable_counterexample :
    getProcessingStats sDownBusy = getProcessingStats sEmpty ∧
    sDownBusy.available = false ∧ sEmpty.available = true ∧
    sDownBusy.counters "counter:cache_hits" = 5 := by
  refine ⟨rfl, rfl, rfl, ?_⟩
  decide

/-- C10 (amended).  A missing file and a file of size 0 are rejected with
the validation error before any fingerprint or cache access (the trace is
empty and the store untouched); but the only size threshold is zero — any
positive-size file of accepted type is fingerprinted and cache-probed
(see the counterexample for a 50-byte file). -/
theorem c10_empty_rejected_amended (gw : JSFile → GatewayReply) (s : Store)
    (f : JSFile) (p sdb : Bool) (hsize : f.size = 0) :
    (uploadResume gw s (some f) p sdb).outcome =
      Except.error "Invalid or empty file" ∧
    (uploadResume gw s (some f) p sdb).trace = [] ∧
    (uploadResume gw s (some f) p sdb).store = s ∧
    (uploadResume gw s none p sdb).outcome =
      Except.error "Invalid or empty file" := by
  simp only [uploadResume]
  rw [if_pos hsize]
  refine ⟨?_, ?_, ?_, ?_⟩ <;> first | rfl | trivial

/-- An empty file of accepted type. -/
def f0 : JSFile :=
  { name := "e", size := 0, lastModified := 0, type := "text/plain", content := [] }

/-- C10 witness: the empty file is rejected with no remote operation. -/
theorem c10_empty_rejected_witness :
    (uploadResume gwS sEmpty (some f0) true true).outcome =
      Except.error "Invalid or empty file" ∧
    (uploadResume gwS sEmpty (some f0) true true).trace = [] ∧
    (uploadResume gwS sEmpty (some f0) true true).store = sEmpty ∧
    (uploadResume gwS sEmpty none true true).outcome =
      Except.error "Invalid or empty file" :=
  c10_empty_rejected_amended gwS sEmpty f0 true true rfl

/-- A 50-byte file of accepted type: below the spec's example threshold of
100 bytes, yet not empty. -/
def fTiny : JSFile :=
  { name := "t.txt", size := 50, lastModified := 0, type := "text/plain",
    content := List.replicate 50 0 }

/-- C10 counterexample: the 50-byte file is not rejected — its first
remote operation is the cache probe of its freshly computed fingerprint,
and the upload proceeds normally. -/
theorem c10_near_empty_counterexample :
    fTiny.size = 50 ∧
    (uploadResume gwS sEmpty (some fTiny) true true).trace.head? =
      some (Event.cacheGet "resume:t.txt-0") ∧
    (uploadResume gwS sEmpty (some fTiny) true true).outcome ≠
      Except.error "Invalid or empty file" := by
  refine ⟨rfl, rfl, ?_⟩
  have houtcome : (uploadResume gwS sEmpty (some fTiny) true true).outcome =
      Except.ok { dW with fromCache := some false } := rfl
  rw [houtcome]
  exact fun h => Except.noConfusion h
